import Mathlib

/-!
Verification of the AI-Powered Financial Statement Analyzer (src/main.py)
against its natural-language specification.

The program is shallowly embedded: pandas DataFrames of financial
statements become association lists from row label to the list of values
per reporting period (most recent period first); Python dicts that are
only ever extended become insertion-ordered association lists; Python
exceptions become an explicit `PyErr` error type threaded with `Except`;
numeric statement values are modelled as rationals, with scalar division
by zero raising `ZeroDivisionError` (Python numeric semantics, as assumed
by the specification's error taxonomy); the Streamlit UI is modelled as a
trace of observable events emitted by `mainRun`.
-/

namespace FinAnalyzer

/-- Python exceptions that can arise inside ratio computation:
`KeyError` from a `.loc[label]` lookup with an absent label,
`IndexError` from `.iloc[0]` on an empty row, and
`ZeroDivisionError` from dividing by a zero denominator. -/
inductive PyErr where
  | keyError
  | indexError
  | zeroDivisionError
deriving DecidableEq, Repr

instance {ε α : Type} [DecidableEq ε] [DecidableEq α] : DecidableEq (Except ε α) := fun a b =>
  match a, b with
  | .error e1, .error e2 =>
    if h : e1 = e2 then .isTrue (by rw [h])
    else .isFalse (fun hc => h (by injection hc))
  | .ok v1, .ok v2 =>
    if h : v1 = v2 then .isTrue (by rw [h])
    else .isFalse (fun hc => h (by injection hc))
  | .error _, .ok _ => .isFalse (fun hc => Except.noConfusion hc)
  | .ok _, .error _ => .isFalse (fun hc => Except.noConfusion hc)

/-- A financial statement: rows keyed by free-text line-item label, each
row holding one value per reporting period, most recent first. -/
abbrev Statement := List (String × List Rat)

/-- Embeds `stmt.loc[label].iloc[0]`: look the row up by label
(`KeyError` if absent, first matching row as pandas does) and take the
value of the first (most recent) period (`IndexError` if the row has no
periods). -/
def getVal (stmt : Statement) (label : String) : Except PyErr Rat :=
  match stmt.find? (fun r => r.1 = label) with
  | none => .error .keyError
  | some r =>
    match r.2.head? with
    | none => .error .indexError
    | some v => .ok v

/-- One per-ratio block of `calculate_financial_ratios`: look up the
numerator, then the denominator, then divide and record the ratio.  A
`KeyError` from either lookup is caught by the block's own handler,
which appends the ratio's name to the missing-data list instead; any
other exception escapes the block.  `acc` is the pair of the
`financial_ratios` dict and the `missing_data` list so far. -/
def tryBlock (stmt : Statement) (numKey denKey name : String)
    (acc : List (String × Rat) × List String) :
    Except PyErr (List (String × Rat) × List String) :=
  match getVal stmt numKey with
  | .error .keyError => .ok (acc.1, acc.2 ++ [name])
  | .error e => .error e
  | .ok num =>
    match getVal stmt denKey with
    | .error .keyError => .ok (acc.1, acc.2 ++ [name])
    | .error e => .error e
    | .ok den =>
      if den = 0 then .error .zeroDivisionError
      else .ok (acc.1 ++ [(name, num / den)], acc.2)

/-- Result of `calculate_financial_ratios`: the `financial_ratios` dict
(the analyzer starts with an empty dict, so this is exactly what the
call produced), the missing-data warning displayed by `st.warning` (if
any), and the exception caught by the method-level `except Exception`
handler and displayed by `st.error` (if any). -/
structure CalcResult where
  ratios : List (String × Rat)
  warning : Option (List String)
  errorCaught : Option PyErr
deriving DecidableEq, Repr

/-- The `try:` body of `calculate_financial_ratios` without the outer
`except Exception` handler: the three per-ratio blocks in source order.
An exception not caught by a block's own `except KeyError` handler
escapes this body. -/
def calcRatiosBody (income balance : Statement) :
    Except PyErr (List (String × Rat) × List String) :=
  tryBlock income "Gross Profit" "Total Revenue" "Gross Margin" ([], []) >>=
    (fun acc1 =>
      tryBlock balance "Total Current Assets" "Total Current Liabilities" "Current Ratio" acc1 >>=
        (fun acc2 =>
          tryBlock balance "Total Liab" "Total Stockholder Equity" "Debt-to-Equity Ratio" acc2))

/-- Embeds `FinancialAnalyzer.calculate_financial_ratios`.  The three
ratio blocks run in order; an exception escaping a block jumps to the
method-level `except Exception` handler, which shows an error message:
the dict keeps the ratios already recorded, the missing-data warning is
never shown, and nothing propagates further.  On normal completion the
warning is shown exactly when the missing-data list is nonempty. -/
def calculate_financial_ratios (income balance : Statement) : CalcResult :=
  match tryBlock income "Gross Profit" "Total Revenue" "Gross Margin" ([], []) with
  | .error e => { ratios := [], warning := none, errorCaught := some e }
  | .ok acc1 =>
    match tryBlock balance "Total Current Assets" "Total Current Liabilities"
        "Current Ratio" acc1 with
    | .error e => { ratios := acc1.1, warning := none, errorCaught := some e }
    | .ok acc2 =>
      match tryBlock balance "Total Liab" "Total Stockholder Equity"
          "Debt-to-Equity Ratio" acc2 with
      | .error e => { ratios := acc2.1, warning := none, errorCaught := some e }
      | .ok acc3 =>
        { ratios := acc3.1
          warning := if acc3.2.isEmpty then none else some acc3.2
          errorCaught := none }

/-- Abbreviation for a per-ratio block being free of exceptions that
escape its `except KeyError` handler: each lookup either succeeds or
fails with an absent label, and a fully looked-up denominator is
nonzero. -/
def blockSafe (stmt : Statement) (numKey denKey : String) : Bool :=
  match getVal stmt numKey with
  | .error .keyError => true
  | .error _ => false
  | .ok _ =>
    match getVal stmt denKey with
    | .error .keyError => true
    | .error _ => false
    | .ok den => if den = 0 then false else true

/-- The dict entries contributed by one ratio block when it raises no
escaping exception: the singleton ratio if both lookups succeed,
nothing otherwise. -/
def blockEntry (stmt : Statement) (numKey denKey name : String) : List (String × Rat) :=
  match getVal stmt numKey, getVal stmt denKey with
  | .ok num, .ok den => [(name, num / den)]
  | _, _ => []

/-- The missing-data names contributed by one ratio block when it raises
no escaping exception: the ratio's name if a lookup hit an absent
label, nothing otherwise. -/
def blockMissingName (stmt : Statement) (numKey denKey name : String) : List String :=
  match getVal stmt numKey, getVal stmt denKey with
  | .error .keyError, _ => [name]
  | .ok _, .error .keyError => [name]
  | _, _ => []

/-- A ratio's required line items are all present in the statement's
most recent period and its denominator is nonzero: both lookups succeed
and the denominator's most-recent value is nonzero. -/
def itemsOkNZ (stmt : Statement) (numKey denKey : String) : Prop :=
  (∃ x, getVal stmt numKey = .ok x) ∧ ∃ d, getVal stmt denKey = .ok d ∧ d ≠ 0

/-- Some required row of a ratio is missing: a lookup fails with
`KeyError` (an absent label). -/
def missingRow (stmt : Statement) (numKey denKey : String) : Prop :=
  getVal stmt numKey = .error .keyError ∨ getVal stmt denKey = .error .keyError

instance (stmt : Statement) (numKey denKey : String) :
    Decidable (missingRow stmt numKey denKey) := by
  unfold missingRow; exact inferInstance

/-- A ratio's required rows are present in the most recent period but
its denominator there is zero. -/
def zeroDenom (stmt : Statement) (numKey denKey : String) : Prop :=
  (∃ x, getVal stmt numKey = .ok x) ∧ getVal stmt denKey = .ok 0

/-! ### Report generation -/

/-- Embeds Python `str.upper` on the characters the program uses. -/
def pyUpper (s : String) : String := ⟨s.data.map Char.toUpper⟩

/-- The ASCII whitespace characters removed by Python `str.strip`. -/
def pyIsSpace (c : Char) : Bool :=
  c == ' ' || c == '\t' || c == '\n' || c == '\r' || c == '\x0b' || c == '\x0c'

/-- Embeds Python `str.strip`: remove leading and trailing whitespace. -/
def pyStrip (s : String) : String :=
  ⟨((s.data.dropWhile pyIsSpace).reverse.dropWhile pyIsSpace).reverse⟩

/-- Round a rational to the nearest integer, ties to even (Python's
rounding mode for `format`). -/
def roundHalfEven (q : Rat) : Int :=
  let f := q.floor
  let r := q - f
  if r < 1/2 then f
  else if 1/2 < r then f + 1
  else if f % 2 = 0 then f else f + 1

/-- Left-pad a two-digit fractional part with a zero. -/
def pad2 (n : Nat) : String := if n < 10 then "0" ++ toString n else toString n

/-- Embeds Python `f"{v:.2f}"`: fixed-point notation with exactly two
digits after the decimal point, rounding half to even. -/
def fmt2 (q : Rat) : String :=
  let n := roundHalfEven (q * 100)
  let a := n.natAbs
  let core := toString (a / 100) ++ "." ++ pad2 (a % 100)
  if n < 0 ∨ (n = 0 ∧ q < 0) then "-" ++ core else core

/-- A chat-completion request as assembled by the program: model
identifier, system message, user prompt, response token cap, sampling
temperature. -/
structure ChatRequest where
  model : String
  systemMsg : String
  userMsg : String
  max_tokens : Nat
  temperature : Rat
deriving DecidableEq, Repr

/-- Outcome of one report-generation function: the request sent to the
completion API (none if no request was made), the returned report text
(none on failure), and whether `st.error` was shown. -/
structure GenResult where
  request : Option ChatRequest
  report : Option String
  errorShown : Bool
deriving DecidableEq, Repr

/-- One line of `ratios_text`: `f"{ratio_name}: {ratio_value:.2f}\n"`. -/
def entryStr (p : String × Rat) : String := p.1 ++ ": " ++ fmt2 p.2 ++ "\n"

/-- The `ratios_text` accumulator loop of `generate_financial_report`. -/
def ratiosText (rs : List (String × Rat)) : String :=
  rs.foldl (fun acc p => acc ++ entryStr p) ""

/-- The ratio-grounded prompt template of `generate_financial_report`,
with the triple-quoted string's indentation preserved. -/
def ratioPrompt (ticker : String) (rs : List (String × Rat)) : String :=
  "\n            Provide a detailed analysis of " ++ ticker ++
  "'s financial health based on the following financial ratios:\n\n            " ++
  ratiosText rs ++
  "\n\n            Discuss what each available ratio means for the company's financial stability and performance.\n            "

/-- The fallback prompt template of `generate_report_with_available_data`. -/
def fallbackPrompt (ticker : String) : String :=
  "\n        Provide a detailed analysis of " ++ ticker ++
  "'s financial health based on the available financial statements.\n\n        Discuss the company's performance, financial stability, and any notable trends or observations.\n        "

/-- Embeds `FinancialAnalyzer.generate_financial_report`.  `apiChoices`
models the completion API outcome: `none` when the call raises (caught
by the function's handler), otherwise the list of choice texts; the
function consumes `choices[0]` (an empty list raises, also caught). -/
def ratioRequest (ticker : String) (rs : List (String × Rat)) : ChatRequest :=
  { model := "gpt-3.5-turbo", systemMsg := "You are a financial analyst."
    userMsg := ratioPrompt ticker rs, max_tokens := 500, temperature := 7/10 }

def generate_financial_report (ticker : String) (ratios : List (String × Rat))
    (apiChoices : Option (List String)) : GenResult :=
  if ratios.isEmpty then { request := none, report := none, errorShown := true }
  else
    let req : ChatRequest := ratioRequest ticker ratios
    match apiChoices with
    | none => { request := some req, report := none, errorShown := true }
    | some choices =>
      match choices.head? with
      | none => { request := some req, report := none, errorShown := true }
      | some t => { request := some req, report := some (pyStrip t), errorShown := false }

/-- Embeds `generate_report_with_available_data` (the fallback path). -/
def fallbackRequest (ticker : String) : ChatRequest :=
  { model := "gpt-4o", systemMsg := "You are a financial analyst."
    userMsg := fallbackPrompt ticker, max_tokens := 2048, temperature := 1 }

def generate_report_with_available_data (ticker : String)
    (apiChoices : Option (List String)) : GenResult :=
  let req : ChatRequest := fallbackRequest ticker
  match apiChoices with
  | none => { request := some req, report := none, errorShown := true }
  | some choices =>
    match choices.head? with
    | none => { request := some req, report := none, errorShown := true }
    | some t => { request := some req, report := some (pyStrip t), errorShown := false }

/-! ### Download link: UTF-8 and base64 -/

/-- UTF-8 encoding of one character (Python `str.encode`), as a list of
byte values. -/
def utf8EncodeChar (c : Char) : List Nat :=
  let n := c.toNat
  if n < 128 then [n]
  else if n < 2048 then [192 + n / 64, 128 + n % 64]
  else if n < 65536 then [224 + n / 4096, 128 + n / 64 % 64, 128 + n % 64]
  else [240 + n / 262144, 128 + n / 4096 % 64, 128 + n / 64 % 64, 128 + n % 64]

/-- UTF-8 encoding of a string as a list of byte values. -/
def utf8Encode (s : String) : List Nat :=
  s.data.foldr (fun c acc => utf8EncodeChar c ++ acc) []

/-- The base64 alphabet: the character for a sextet value. -/
def b64Char (n : Nat) : Char :=
  if n < 26 then Char.ofNat (65 + n)
  else if n < 52 then Char.ofNat (97 + (n - 26))
  else if n < 62 then Char.ofNat (48 + (n - 52))
  else if n = 62 then '+' else '/'

/-- Inverse of the base64 alphabet; `none` for characters outside it. -/
def b64CharDec (c : Char) : Option Nat :=
  let n := c.toNat
  if 65 ≤ n ∧ n ≤ 90 then some (n - 65)
  else if 97 ≤ n ∧ n ≤ 122 then some (n - 97 + 26)
  else if 48 ≤ n ∧ n ≤ 57 then some (n - 48 + 52)
  else if c = '+' then some 62
  else if c = '/' then some 63
  else none

/-- Standard base64 encoding of a byte list (`base64.b64encode`):
three bytes become four alphabet characters, a final short group is
padded with `=`. -/
def b64encodeBytes : List Nat → List Char
  | [] => []
  | [a] => [b64Char (a / 4), b64Char (a % 4 * 16), '=', '=']
  | [a, b] => [b64Char (a / 4), b64Char (a % 4 * 16 + b / 16), b64Char (b % 16 * 4), '=']
  | a :: b :: c :: rest =>
    b64Char (a / 4) :: b64Char (a % 4 * 16 + b / 16) :: b64Char (b % 16 * 4 + c / 64) ::
      b64Char (c % 64) :: b64encodeBytes rest

/-- Strict base64 decoding of a character list: four characters per
group, `=` padding only in a final group; `none` on malformed input. -/
def b64decodeChars : List Char → Option (List Nat)
  | [] => some []
  | c1 :: c2 :: c3 :: c4 :: rest =>
    match b64CharDec c1, b64CharDec c2 with
    | some s1, some s2 =>
      if c3 = '=' then
        if c4 = '=' ∧ rest = [] then some [s1 * 4 + s2 / 16] else none
      else
        match b64CharDec c3 with
        | some s3 =>
          if c4 = '=' then
            if rest = [] then some [s1 * 4 + s2 / 16, s2 % 16 * 16 + s3 / 4] else none
          else
            match b64CharDec c4 with
            | some s4 =>
              (b64decodeChars rest).map
                (fun bs =>
                  (s1 * 4 + s2 / 16) :: (s2 % 16 * 16 + s3 / 4) :: (s3 % 4 * 64 + s4) :: bs)
            | none => none
        | none => none
    | _, _ => none
  | _ => none

/-- Embeds `base64.b64encode(text.encode()).decode()`: the base64 payload
embedded in the download link. -/
def b64OfString (text : String) : String := ⟨b64encodeBytes (utf8Encode text)⟩

/-- Base64-decode a payload string back to bytes. -/
def b64decodeStr (s : String) : Option (List Nat) := b64decodeChars s.data

/-- Embeds `get_text_download_link`: the anchor element whose href
embeds the base64 payload of the report and whose `download` attribute
names the exported file. -/
def get_text_download_link (text filename : String) : String :=
  "<a href=\"data:file/txt;base64," ++ b64OfString text ++ "\" download=\"" ++
    filename ++ "\">Download Report</a>"

/-! ### The Streamlit `main` flow as an event trace -/

/-- Observable UI effects of one `main` run, in order of occurrence. -/
inductive Event where
  | sidebarWrite (msg : String)
  | constructAnalyzer (ticker : String)
  | fetchAttempt (ticker : String)
  | successMsg (msg : String)
  | errorMsg (msg : String)
  | infoMsg (msg : String)
  | warnMsg (missingNames : List String)
  | showStatements
  | showRatios (rs : List (String × Rat))
  | invokeRatioReport (ticker : String)
  | invokeFallbackReport (ticker : String)
  | showReport (text : String)
  | downloadLink (href : String)
deriving DecidableEq, Repr

/-- Environment of one run: the outcomes of the external services
(market-data fetch, the two completion-API calls) and the raw-statement
checkbox. -/
structure Env where
  fetchOk : Bool
  income : Statement
  balance : Statement
  showRaw : Bool
  ratioChoices : Option (List String)
  fallbackChoices : Option (List String)

/-- A concrete environment used by witnesses: successful fetch, complete
statements with nonzero denominators, ratio-mode completion returning
the text "ok". -/
def exampleEnv : Env :=
  { fetchOk := true
    income := [("Gross Profit", [3]), ("Total Revenue", [4])]
    balance := [("Total Current Assets", [10]), ("Total Current Liabilities", [5]),
      ("Total Liab", [6]), ("Total Stockholder Equity", [2])]
    showRaw := false
    ratioChoices := some ["ok"]
    fallbackChoices := none }

/-- Message text of the `st.error` shown by the method-level handler of
`calculate_financial_ratios`. -/
def calcErrText (e : PyErr) : String :=
  match e with
  | .keyError => "Error calculating financial ratios: KeyError"
  | .indexError => "Error calculating financial ratios: IndexError"
  | .zeroDivisionError => "Error calculating financial ratios: division by zero"

/-- The analysis block of `main` (the body of `if ticker:`), as the
trace of observable events it produces for an already-uppercased
ticker. -/
def mainBody (ticker : String) (env : Env) : List Event :=
  [.sidebarWrite ("Analyzing: " ++ ticker), .constructAnalyzer ticker,
   .fetchAttempt ticker] ++
  if env.fetchOk = false then
    [.errorMsg "Failed to fetch data. Please check the ticker symbol and try again."]
  else
    (match (calculate_financial_ratios env.income env.balance).warning with
      | some ms => [.warnMsg ms]
      | none => []) ++
    (match (calculate_financial_ratios env.income env.balance).errorCaught with
      | some e => [.errorMsg (calcErrText e)]
      | none => []) ++
    if (calculate_financial_ratios env.income env.balance).ratios.isEmpty = false then
      [.successMsg "Data fetched and ratios calculated."] ++
      (if env.showRaw then [.showStatements] else []) ++
      [.showRatios (calculate_financial_ratios env.income env.balance).ratios,
       .invokeRatioReport ticker] ++
      (match (generate_financial_report ticker
          (calculate_financial_ratios env.income env.balance).ratios
          env.ratioChoices).report with
       | some r =>
         [.showReport r,
          .downloadLink (get_text_download_link r (ticker ++ "_financial_report.txt"))]
       | none => [.errorMsg "Failed to generate financial report."])
    else
      [.errorMsg "Financial ratios could not be calculated.",
       .infoMsg "Generating report based on available financial data.",
       .invokeFallbackReport ticker] ++
      (match (generate_report_with_available_data ticker env.fallbackChoices).report with
       | some r => [.showReport r]
       | none => [.errorMsg "Unable to generate report due to insufficient data."])

/-- Embeds the `main` function of src/main.py as the trace of observable
events it produces, given the ticker text-input value and the external
environment.  The ticker is uppercased before any use; an empty
(falsy) ticker short-circuits the whole analysis block. -/
def mainRun (input : String) (env : Env) : List Event :=
  let ticker := pyUpper input
  if ticker = "" then []
  else mainBody ticker env

/-- Whether an event is the invocation of the ratio-grounded report
generator. -/
def isRatioInvoke : Event → Bool
  | .invokeRatioReport _ => true
  | _ => false

/-- Whether an event is the invocation of the fallback report
generator. -/
def isFallbackInvoke : Event → Bool
  | .invokeFallbackReport _ => true
  | _ => false

/-! ### Sanity checks of the embedding on concrete inputs -/

example :
    calculate_financial_ratios
      [("Gross Profit", [3]), ("Total Revenue", [4])]
      [("Total Current Assets", [10]), ("Total Current Liabilities", [5]),
       ("Total Liab", [6]), ("Total Stockholder Equity", [2])] =
    { ratios := [("Gross Margin", 3/4), ("Current Ratio", 10/5), ("Debt-to-Equity Ratio", 6/2)]
      warning := none
      errorCaught := none } := rfl

example :
    calculate_financial_ratios
      [("Total Revenue", [4])]
      [("Total Current Assets", [10]), ("Total Current Liabilities", [5]),
       ("Total Liab", [6]), ("Total Stockholder Equity", [2])] =
    { ratios := [("Current Ratio", 10/5), ("Debt-to-Equity Ratio", 6/2)]
      warning := some ["Gross Margin"]
      errorCaught := none } := rfl

example :
    calculate_financial_ratios
      [("Gross Profit", [3]), ("Total Revenue", [0])]
      [("Total Current Assets", [10]), ("Total Current Liabilities", [5]),
       ("Total Liab", [6]), ("Total Stockholder Equity", [2])] =
    { ratios := [], warning := none, errorCaught := some .zeroDivisionError } := rfl

example : b64OfString "Man" = "TWFu" := by decide

example : b64OfString "Ma" = "TWE=" := by decide

example : b64OfString "M" = "TQ==" := by decide

example : pyStrip "  hi there\n" = "hi there" := by decide

example : pyUpper "aapl" = "AAPL" := by decide

/-! ### Helper lemmas about the ratio blocks -/

/-- A block that cannot raise an escaping exception returns normally,
appending its entry to the ratio dict and its missing name to the
missing-data list. -/
lemma tryBlock_safe (stmt : Statement) (numKey denKey name : String)
    (acc : List (String × Rat) × List String)
    (h : blockSafe stmt numKey denKey = true) :
    tryBlock stmt numKey denKey name acc =
      .ok (acc.1 ++ blockEntry stmt numKey denKey name,
           acc.2 ++ blockMissingName stmt numKey denKey name) := by
  cases h1 : getVal stmt numKey with
  | error e =>
    cases e with
    | keyError => simp [tryBlock, blockEntry, blockMissingName, h1]
    | indexError => simp [blockSafe, h1] at h
    | zeroDivisionError => simp [blockSafe, h1] at h
  | ok num =>
    cases h2 : getVal stmt denKey with
    | error e =>
      cases e with
      | keyError => simp [tryBlock, blockEntry, blockMissingName, h1, h2]
      | indexError => simp [blockSafe, h1, h2] at h
      | zeroDivisionError => simp [blockSafe, h1, h2] at h
    | ok den =>
      have h0 : den ≠ 0 := by
        by_cases hd : den = 0
        · simp [blockSafe, h1, h2, hd] at h
        · exact hd
      simp [tryBlock, blockEntry, blockMissingName, h1, h2, h0]

/-- When every block is exception-safe, `calculate_financial_ratios`
returns the concatenation of the per-block contributions with no
caught exception, warning exactly when some block recorded a missing
ratio. -/
lemma calculate_char (inc bal : Statement)
    (h1 : blockSafe inc "Gross Profit" "Total Revenue" = true)
    (h2 : blockSafe bal "Total Current Assets" "Total Current Liabilities" = true)
    (h3 : blockSafe bal "Total Liab" "Total Stockholder Equity" = true) :
    calculate_financial_ratios inc bal =
      { ratios := blockEntry inc "Gross Profit" "Total Revenue" "Gross Margin" ++
          (blockEntry bal "Total Current Assets" "Total Current Liabilities" "Current Ratio" ++
           blockEntry bal "Total Liab" "Total Stockholder Equity" "Debt-to-Equity Ratio")
        warning :=
          if (blockMissingName inc "Gross Profit" "Total Revenue" "Gross Margin" ++
              (blockMissingName bal "Total Current Assets" "Total Current Liabilities"
                  "Current Ratio" ++
               blockMissingName bal "Total Liab" "Total Stockholder Equity"
                  "Debt-to-Equity Ratio")).isEmpty
          then none
          else some (blockMissingName inc "Gross Profit" "Total Revenue" "Gross Margin" ++
              (blockMissingName bal "Total Current Assets" "Total Current Liabilities"
                  "Current Ratio" ++
               blockMissingName bal "Total Liab" "Total Stockholder Equity"
                  "Debt-to-Equity Ratio"))
        errorCaught := none } := by
  have t1 := fun acc => tryBlock_safe inc "Gross Profit" "Total Revenue" "Gross Margin" acc h1
  have t2 := fun acc =>
    tryBlock_safe bal "Total Current Assets" "Total Current Liabilities" "Current Ratio" acc h2
  have t3 := fun acc =>
    tryBlock_safe bal "Total Liab" "Total Stockholder Equity" "Debt-to-Equity Ratio" acc h3
  simp only [calculate_financial_ratios, t1, t2, t3]
  simp [List.append_assoc]

/-- Every dict entry a block contributes carries the block's own ratio
name. -/
lemma mem_blockEntry_name (stmt : Statement) (numKey denKey name : String)
    (p : String × Rat) (hp : p ∈ blockEntry stmt numKey denKey name) : p.1 = name := by
  unfold blockEntry at hp
  cases h1 : getVal stmt numKey with
  | error e => rw [h1] at hp; simp at hp
  | ok num =>
    cases h2 : getVal stmt denKey with
    | error e => rw [h1, h2] at hp; simp at hp
    | ok den => rw [h1, h2] at hp; simp at hp; rw [hp]

/-- Every missing-data name a block contributes is the block's own
ratio name. -/
lemma mem_blockMissingName (stmt : Statement) (numKey denKey name : String)
    (s : String) (hs : s ∈ blockMissingName stmt numKey denKey name) : s = name := by
  unfold blockMissingName at hs
  cases h1 : getVal stmt numKey with
  | error e =>
    rw [h1] at hs
    cases e <;> simp at hs <;> try exact hs
  | ok num =>
    cases h2 : getVal stmt denKey with
    | error e =>
      rw [h1, h2] at hs
      cases e <;> simp at hs <;> try exact hs
    | ok den => rw [h1, h2] at hs; simp at hs

/-- For an exception-safe block, an entry exists exactly when both line
items are present and the denominator is nonzero. -/
lemma exists_mem_blockEntry_iff (stmt : Statement) (numKey denKey name : String)
    (h : blockSafe stmt numKey denKey = true) :
    (∃ v, (name, v) ∈ blockEntry stmt numKey denKey name) ↔ itemsOkNZ stmt numKey denKey := by
  cases h1 : getVal stmt numKey with
  | error e =>
    simp [blockEntry, itemsOkNZ, h1]
  | ok num =>
    cases h2 : getVal stmt denKey with
    | error e =>
      cases e with
      | keyError => simp [blockEntry, itemsOkNZ, h1, h2]
      | indexError => simp [blockSafe, h1, h2] at h
      | zeroDivisionError => simp [blockSafe, h1, h2] at h
    | ok den =>
      have h0 : den ≠ 0 := by
        by_cases hd : den = 0
        · simp [blockSafe, h1, h2, hd] at h
        · exact hd
      simp [blockEntry, itemsOkNZ, h1, h2, h0]

/-- For an exception-safe block, the block records a missing name
exactly when some required row is missing. -/
lemma blockMissingName_iff (stmt : Statement) (numKey denKey name : String)
    (h : blockSafe stmt numKey denKey = true) :
    blockMissingName stmt numKey denKey name = (if missingRow stmt numKey denKey then [name] else []) := by
  cases h1 : getVal stmt numKey with
  | error e =>
    cases e with
    | keyError => simp [blockMissingName, missingRow, h1]
    | indexError => simp [blockSafe, h1] at h
    | zeroDivisionError => simp [blockSafe, h1] at h
  | ok num =>
    cases h2 : getVal stmt denKey with
    | error e =>
      cases e with
      | keyError => simp [blockMissingName, missingRow, h1, h2]
      | indexError => simp [blockSafe, h1, h2] at h
      | zeroDivisionError => simp [blockSafe, h1, h2] at h
    | ok den => simp [blockMissingName, missingRow, h1, h2]

/-- A block whose required rows include a missing one contributes no
dict entry. -/
lemma blockEntry_eq_nil_of_missing (stmt : Statement) (numKey denKey name : String)
    (h : missingRow stmt numKey denKey) : blockEntry stmt numKey denKey name = [] := by
  rcases h with h | h
  · simp [blockEntry, h]
  · cases h1 : getVal stmt numKey with
    | error e => simp [blockEntry, h1]
    | ok num => simp [blockEntry, h1, h]

/-- For an exception-safe block with all rows present and nonzero
denominator, no missing name is recorded. -/
lemma blockMissingName_eq_nil_of_ok (stmt : Statement) (numKey denKey name : String)
    (h : itemsOkNZ stmt numKey denKey) : blockMissingName stmt numKey denKey name = [] := by
  obtain ⟨⟨x, hx⟩, d, hd, _⟩ := h
  simp [blockMissingName, hx, hd]

/-- A name different from a block's ratio name never occurs among the
block's missing-data names. -/
lemma count_blockMissingName_other (stmt : Statement) (numKey denKey name other : String)
    (hne : other ≠ name) : List.count other (blockMissingName stmt numKey denKey name) = 0 :=
  List.count_eq_zero.mpr (fun hmem => hne (mem_blockMissingName _ _ _ _ _ hmem))

/-- Looking for a name in an appended block of entries that all carry
other names reduces to the left part. -/
lemma exists_name_append_left (name : String) (l1 l2 : List (String × Rat))
    (hl2 : ∀ p ∈ l2, p.1 ≠ name) :
    (∃ v, (name, v) ∈ l1 ++ l2) ↔ (∃ v, (name, v) ∈ l1) := by
  constructor
  · rintro ⟨v, hv⟩
    rcases List.mem_append.mp hv with h | h
    · exact ⟨v, h⟩
    · exact absurd rfl (hl2 _ h)
  · rintro ⟨v, hv⟩
    exact ⟨v, List.mem_append.mpr (.inl hv)⟩

/-- Looking for a name in an appended block of entries whose left part
carries only other names reduces to the right part. -/
lemma exists_name_append_right (name : String) (l1 l2 : List (String × Rat))
    (hl1 : ∀ p ∈ l1, p.1 ≠ name) :
    (∃ v, (name, v) ∈ l1 ++ l2) ↔ (∃ v, (name, v) ∈ l2) := by
  constructor
  · rintro ⟨v, hv⟩
    rcases List.mem_append.mp hv with h | h
    · exact absurd rfl (hl1 _ h)
    · exact ⟨v, h⟩
  · rintro ⟨v, hv⟩
    exact ⟨v, List.mem_append.mpr (.inr hv)⟩

/-- Entries of a block named differently carry no given name. -/
lemma blockEntry_ne_name (stmt : Statement) (numKey denKey bname name : String)
    (hne : bname ≠ name) : ∀ p ∈ blockEntry stmt numKey denKey bname, p.1 ≠ name :=
  fun p hp => by rw [mem_blockEntry_name _ _ _ _ p hp]; exact hne

/-! ### Claim theorems -/

/-- Claim C1: whenever the income statement's most recent period has
rows `Gross Profit` and `Total Revenue` and the balance sheet's most
recent period has rows `Total Current Assets`, `Total Current
Liabilities`, `Total Liab` and `Total Stockholder Equity`, with each
denominator nonzero, `calculate_financial_ratios` records
Gross Margin = Gross Profit / Total Revenue,
Current Ratio = Total Current Assets / Total Current Liabilities and
Debt-to-Equity Ratio = Total Liab / Total Stockholder Equity, each read
from the first (most recent) column, with no warning and no caught
exception. -/
theorem c1_ratio_quotients (inc bal : Statement) (gp tr ca cl tl se : Rat)
    (hgp : getVal inc "Gross Profit" = .ok gp)
    (htr : getVal inc "Total Revenue" = .ok tr)
    (hca : getVal bal "Total Current Assets" = .ok ca)
    (hcl : getVal bal "Total Current Liabilities" = .ok cl)
    (htl : getVal bal "Total Liab" = .ok tl)
    (hse : getVal bal "Total Stockholder Equity" = .ok se)
    (htr0 : tr ≠ 0) (hcl0 : cl ≠ 0) (hse0 : se ≠ 0) :
    calculate_financial_ratios inc bal =
      { ratios := [("Gross Margin", gp / tr), ("Current Ratio", ca / cl),
                   ("Debt-to-Equity Ratio", tl / se)]
        warning := none
        errorCaught := none } := by
  have hs1 : blockSafe inc "Gross Profit" "Total Revenue" = true := by
    simp [blockSafe, hgp, htr, htr0]
  have hs2 : blockSafe bal "Total Current Assets" "Total Current Liabilities" = true := by
    simp [blockSafe, hca, hcl, hcl0]
  have hs3 : blockSafe bal "Total Liab" "Total Stockholder Equity" = true := by
    simp [blockSafe, htl, hse, hse0]
  rw [calculate_char inc bal hs1 hs2 hs3]
  simp [blockEntry, blockMissingName, hgp, htr, hca, hcl, htl, hse]

/-- Witness for C1 at a concrete triple of statements. -/
theorem c1_ratio_quotients_witness :
    calculate_financial_ratios
      [("Gross Profit", [3]), ("Total Revenue", [4])]
      [("Total Current Assets", [10]), ("Total Current Liabilities", [5]),
       ("Total Liab", [6]), ("Total Stockholder Equity", [2])] =
      { ratios := [("Gross Margin", (3 : Rat) / 4), ("Current Ratio", (10 : Rat) / 5),
                   ("Debt-to-Equity Ratio", (6 : Rat) / 2)]
        warning := none
        errorCaught := none } :=
  c1_ratio_quotients _ _ 3 4 10 5 6 2 rfl rfl rfl rfl rfl rfl
    (by decide) (by decide) (by decide)

/-- Claim C2, as stated, is false: a ZeroDivisionError in the Gross
Margin block (Gross Profit present, Total Revenue zero) escapes that
block's `except KeyError` handler and jumps to the method-level
handler, so the Current Ratio block never runs — its entry is absent
although all of its line items are present with a nonzero
denominator. -/
theorem c2_entry_iff_present_counterexample :
    ¬ ((∃ v, ("Current Ratio", v) ∈
          (calculate_financial_ratios [("Gross Profit", [1]), ("Total Revenue", [0])]
            [("Total Current Assets", [10]), ("Total Current Liabilities", [5]),
             ("Total Liab", [6]), ("Total Stockholder Equity", [2])]).ratios) ↔
        itemsOkNZ
          [("Total Current Assets", [10]), ("Total Current Liabilities", [5]),
           ("Total Liab", [6]), ("Total Stockholder Equity", [2])]
          "Total Current Assets" "Total Current Liabilities") := by
  intro h
  have hok : itemsOkNZ
      [("Total Current Assets", [10]), ("Total Current Liabilities", [5]),
       ("Total Liab", [6]), ("Total Stockholder Equity", [2])]
      "Total Current Assets" "Total Current Liabilities" :=
    ⟨⟨10, rfl⟩, 5, rfl, by decide⟩
  obtain ⟨v, hv⟩ := h.mpr hok
  have hnil : (calculate_financial_ratios [("Gross Profit", [1]), ("Total Revenue", [0])]
      [("Total Current Assets", [10]), ("Total Current Liabilities", [5]),
       ("Total Liab", [6]), ("Total Stockholder Equity", [2])]).ratios = [] := rfl
  rw [hnil] at hv
  exact List.not_mem_nil _ hv

/-- Claim C2 (amended): provided no ratio block raises an exception that
escapes its `except KeyError` handler — every required row that is
present has a most-recent value and every fully present ratio has a
nonzero denominator — an entry for each of the three ratio names exists
in `financial_ratios` if and only if every line item required for that
ratio is present in the corresponding statement's most recent period
with a nonzero denominator. -/
theorem c2_entry_iff_present_amended (inc bal : Statement)
    (h1 : blockSafe inc "Gross Profit" "Total Revenue" = true)
    (h2 : blockSafe bal "Total Current Assets" "Total Current Liabilities" = true)
    (h3 : blockSafe bal "Total Liab" "Total Stockholder Equity" = true) :
    ((∃ v, ("Gross Margin", v) ∈ (calculate_financial_ratios inc bal).ratios) ↔
      itemsOkNZ inc "Gross Profit" "Total Revenue") ∧
    ((∃ v, ("Current Ratio", v) ∈ (calculate_financial_ratios inc bal).ratios) ↔
      itemsOkNZ bal "Total Current Assets" "Total Current Liabilities") ∧
    ((∃ v, ("Debt-to-Equity Ratio", v) ∈ (calculate_financial_ratios inc bal).ratios) ↔
      itemsOkNZ bal "Total Liab" "Total Stockholder Equity") := by
  rw [calculate_char inc bal h1 h2 h3]
  have hGM2 := blockEntry_ne_name bal "Total Current Assets" "Total Current Liabilities"
    "Current Ratio" "Gross Margin" (by decide)
  have hGM3 := blockEntry_ne_name bal "Total Liab" "Total Stockholder Equity"
    "Debt-to-Equity Ratio" "Gross Margin" (by decide)
  have hCR1 := blockEntry_ne_name inc "Gross Profit" "Total Revenue"
    "Gross Margin" "Current Ratio" (by decide)
  have hCR3 := blockEntry_ne_name bal "Total Liab" "Total Stockholder Equity"
    "Debt-to-Equity Ratio" "Current Ratio" (by decide)
  have hDE1 := blockEntry_ne_name inc "Gross Profit" "Total Revenue"
    "Gross Margin" "Debt-to-Equity Ratio" (by decide)
  have hDE2 := blockEntry_ne_name bal "Total Current Assets" "Total Current Liabilities"
    "Current Ratio" "Debt-to-Equity Ratio" (by decide)
  refine ⟨?_, ?_, ?_⟩
  · rw [exists_name_append_left _ _ _ (by
      intro p hp
      rcases List.mem_append.mp hp with hmem | hmem
      · exact hGM2 p hmem
      · exact hGM3 p hmem)]
    exact exists_mem_blockEntry_iff inc "Gross Profit" "Total Revenue" "Gross Margin" h1
  · rw [exists_name_append_right _ _ _ hCR1, exists_name_append_left _ _ _ hCR3]
    exact exists_mem_blockEntry_iff bal "Total Current Assets" "Total Current Liabilities"
      "Current Ratio" h2
  · rw [exists_name_append_right _ _ _ hDE1, exists_name_append_right _ _ _ hDE2]
    exact exists_mem_blockEntry_iff bal "Total Liab" "Total Stockholder Equity"
      "Debt-to-Equity Ratio" h3

/-- Witness for the amended C2 at a concrete pair of statements in which
Gross Margin's rows are missing, Current Ratio's rows are fully
present, and Debt-to-Equity's denominator row is absent. -/
theorem c2_entry_iff_present_amended_witness :
    ((∃ v, ("Gross Margin", v) ∈
        (calculate_financial_ratios [("Total Revenue", [4])]
          [("Total Current Assets", [10]), ("Total Current Liabilities", [5]),
           ("Total Stockholder Equity", [2])]).ratios) ↔
      itemsOkNZ [("Total Revenue", [4])] "Gross Profit" "Total Revenue") ∧
    ((∃ v, ("Current Ratio", v) ∈
        (calculate_financial_ratios [("Total Revenue", [4])]
          [("Total Current Assets", [10]), ("Total Current Liabilities", [5]),
           ("Total Stockholder Equity", [2])]).ratios) ↔
      itemsOkNZ [("Total Current Assets", [10]), ("Total Current Liabilities", [5]),
          ("Total Stockholder Equity", [2])]
        "Total Current Assets" "Total Current Liabilities") ∧
    ((∃ v, ("Debt-to-Equity Ratio", v) ∈
        (calculate_financial_ratios [("Total Revenue", [4])]
          [("Total Current Assets", [10]), ("Total Current Liabilities", [5]),
           ("Total Stockholder Equity", [2])]).ratios) ↔
      itemsOkNZ [("Total Current Assets", [10]), ("Total Current Liabilities", [5]),
          ("Total Stockholder Equity", [2])]
        "Total Liab" "Total Stockholder Equity") :=
  c2_entry_iff_present_amended _ _ (by decide) (by decide) (by decide)

/-- Claim C3, as stated, is false: with Gross Margin's row missing and
Current Ratio's rows present but its denominator zero, the
ZeroDivisionError jumps to the method-level handler, so Gross Margin's
name is never surfaced in the missing-data warning (the warning is not
shown at all) and Debt-to-Equity — whose rows are present with a
nonzero denominator — is not computed. -/
theorem c3_missing_isolated_counterexample :
    ¬ ((((calculate_financial_ratios [("Total Revenue", [4])]
            [("Total Current Assets", [10]), ("Total Current Liabilities", [0]),
             ("Total Liab", [6]), ("Total Stockholder Equity", [2])]).warning.getD
          []).count "Gross Margin" = 1) ∧
        ∃ v, ("Debt-to-Equity Ratio", v) ∈
          (calculate_financial_ratios [("Total Revenue", [4])]
            [("Total Current Assets", [10]), ("Total Current Liabilities", [0]),
             ("Total Liab", [6]), ("Total Stockholder Equity", [2])]).ratios) := by
  intro hcl
  obtain ⟨hcount, -⟩ := hcl
  have hw : (calculate_financial_ratios [("Total Revenue", [4])]
      [("Total Current Assets", [10]), ("Total Current Liabilities", [0]),
       ("Total Liab", [6]), ("Total Stockholder Equity", [2])]).warning = none := rfl
  rw [hw] at hcount
  simp at hcount

/-- Claim C3 (amended): provided no ratio block raises an exception that
escapes its `except KeyError` handler, a ratio with a missing required
row is omitted from `financial_ratios` and its name appears exactly
once in the displayed missing-data warning, while each ratio whose
required rows are all present with a nonzero denominator is still
computed: a missing row for one ratio does not prevent computation of
another. -/
theorem c3_missing_isolated_amended (inc bal : Statement)
    (h1 : blockSafe inc "Gross Profit" "Total Revenue" = true)
    (h2 : blockSafe bal "Total Current Assets" "Total Current Liabilities" = true)
    (h3 : blockSafe bal "Total Liab" "Total Stockholder Equity" = true) :
    (missingRow inc "Gross Profit" "Total Revenue" →
      (∀ v, ("Gross Margin", v) ∉ (calculate_financial_ratios inc bal).ratios) ∧
      ((calculate_financial_ratios inc bal).warning.getD []).count "Gross Margin" = 1) ∧
    (missingRow bal "Total Current Assets" "Total Current Liabilities" →
      (∀ v, ("Current Ratio", v) ∉ (calculate_financial_ratios inc bal).ratios) ∧
      ((calculate_financial_ratios inc bal).warning.getD []).count "Current Ratio" = 1) ∧
    (missingRow bal "Total Liab" "Total Stockholder Equity" →
      (∀ v, ("Debt-to-Equity Ratio", v) ∉ (calculate_financial_ratios inc bal).ratios) ∧
      ((calculate_financial_ratios inc bal).warning.getD []).count "Debt-to-Equity Ratio" = 1) ∧
    (itemsOkNZ inc "Gross Profit" "Total Revenue" →
      ∃ v, ("Gross Margin", v) ∈ (calculate_financial_ratios inc bal).ratios) ∧
    (itemsOkNZ bal "Total Current Assets" "Total Current Liabilities" →
      ∃ v, ("Current Ratio", v) ∈ (calculate_financial_ratios inc bal).ratios) ∧
    (itemsOkNZ bal "Total Liab" "Total Stockholder Equity" →
      ∃ v, ("Debt-to-Equity Ratio", v) ∈ (calculate_financial_ratios inc bal).ratios) := by
  rw [calculate_char inc bal h1 h2 h3]
  have hGM2 := blockEntry_ne_name bal "Total Current Assets" "Total Current Liabilities"
    "Current Ratio" "Gross Margin" (by decide)
  have hGM3 := blockEntry_ne_name bal "Total Liab" "Total Stockholder Equity"
    "Debt-to-Equity Ratio" "Gross Margin" (by decide)
  have hCR1 := blockEntry_ne_name inc "Gross Profit" "Total Revenue"
    "Gross Margin" "Current Ratio" (by decide)
  have hCR3 := blockEntry_ne_name bal "Total Liab" "Total Stockholder Equity"
    "Debt-to-Equity Ratio" "Current Ratio" (by decide)
  have hDE1 := blockEntry_ne_name inc "Gross Profit" "Total Revenue"
    "Gross Margin" "Debt-to-Equity Ratio" (by decide)
  have hDE2 := blockEntry_ne_name bal "Total Current Assets" "Total Current Liabilities"
    "Current Ratio" "Debt-to-Equity Ratio" (by decide)
  refine ⟨?_, ?_, ?_, ?_, ?_, ?_⟩
  · intro hm
    constructor
    · intro v hv
      rw [blockEntry_eq_nil_of_missing inc _ _ "Gross Margin" hm] at hv
      rw [List.nil_append] at hv
      rcases List.mem_append.mp hv with hmem | hmem
      · exact hGM2 _ hmem rfl
      · exact hGM3 _ hmem rfl
    · rw [blockMissingName_iff inc _ _ "Gross Margin" h1, if_pos hm]
      simp [List.count_append,
        count_blockMissingName_other bal _ _ "Current Ratio" "Gross Margin" (by decide),
        count_blockMissingName_other bal _ _ "Debt-to-Equity Ratio" "Gross Margin" (by decide)]
  · intro hm
    constructor
    · intro v hv
      rw [blockEntry_eq_nil_of_missing bal _ _ "Current Ratio" hm] at hv
      rcases List.mem_append.mp hv with hmem | hmem
      · exact hCR1 _ hmem rfl
      · rw [List.nil_append] at hmem
        exact hCR3 _ hmem rfl
    · rw [blockMissingName_iff bal _ _ "Current Ratio" h2, if_pos hm]
      simp [List.count_append,
        count_blockMissingName_other inc _ _ "Gross Margin" "Current Ratio" (by decide),
        count_blockMissingName_other bal _ _ "Debt-to-Equity Ratio" "Current Ratio" (by decide)]
  · intro hm
    constructor
    · intro v hv
      rw [blockEntry_eq_nil_of_missing bal _ _ "Debt-to-Equity Ratio" hm] at hv
      rw [List.append_nil] at hv
      rcases List.mem_append.mp hv with hmem | hmem
      · exact hDE1 _ hmem rfl
      · exact hDE2 _ hmem rfl
    · rw [blockMissingName_iff bal _ _ "Debt-to-Equity Ratio" h3, if_pos hm]
      simp [List.count_append,
        count_blockMissingName_other inc _ _ "Gross Margin" "Debt-to-Equity Ratio" (by decide),
        count_blockMissingName_other bal _ _ "Current Ratio" "Debt-to-Equity Ratio" (by decide)]
  · intro hok
    obtain ⟨v, hv⟩ := (exists_mem_blockEntry_iff inc _ _ "Gross Margin" h1).mpr hok
    exact ⟨v, List.mem_append.mpr (.inl hv)⟩
  · intro hok
    obtain ⟨v, hv⟩ := (exists_mem_blockEntry_iff bal _ _ "Current Ratio" h2).mpr hok
    exact ⟨v, List.mem_append.mpr (.inr (List.mem_append.mpr (.inl hv)))⟩
  · intro hok
    obtain ⟨v, hv⟩ := (exists_mem_blockEntry_iff bal _ _ "Debt-to-Equity Ratio" h3).mpr hok
    exact ⟨v, List.mem_append.mpr (.inr (List.mem_append.mpr (.inr hv)))⟩

/-- Witness for the amended C3: Gross Margin's numerator row is missing
while the other two ratios are fully computable. -/
theorem c3_missing_isolated_amended_witness :
    ((missingRow [("Total Revenue", [4])] "Gross Profit" "Total Revenue") ∧
      (∀ v, ("Gross Margin", v) ∉
        (calculate_financial_ratios [("Total Revenue", [4])]
          [("Total Current Assets", [10]), ("Total Current Liabilities", [5]),
           ("Total Liab", [6]), ("Total Stockholder Equity", [2])]).ratios) ∧
      ((calculate_financial_ratios [("Total Revenue", [4])]
          [("Total Current Assets", [10]), ("Total Current Liabilities", [5]),
           ("Total Liab", [6]), ("Total Stockholder Equity", [2])]).warning.getD
        []).count "Gross Margin" = 1) ∧
    ((∃ v, ("Current Ratio", v) ∈
        (calculate_financial_ratios [("Total Revenue", [4])]
          [("Total Current Assets", [10]), ("Total Current Liabilities", [5]),
           ("Total Liab", [6]), ("Total Stockholder Equity", [2])]).ratios) ∧
      ∃ v, ("Debt-to-Equity Ratio", v) ∈
        (calculate_financial_ratios [("Total Revenue", [4])]
          [("Total Current Assets", [10]), ("Total Current Liabilities", [5]),
           ("Total Liab", [6]), ("Total Stockholder Equity", [2])]).ratios) := by
  have h := c3_missing_isolated_amended [("Total Revenue", [4])]
    [("Total Current Assets", [10]), ("Total Current Liabilities", [5]),
     ("Total Liab", [6]), ("Total Stockholder Equity", [2])]
    (by decide) (by decide) (by decide)
  have hm : missingRow [("Total Revenue", [4])] "Gross Profit" "Total Revenue" := .inl rfl
  exact ⟨⟨hm, (h.1 hm).1, (h.1 hm).2⟩,
    h.2.2.2.2.1 ⟨⟨10, rfl⟩, 5, rfl, by decide⟩,
    h.2.2.2.2.2 ⟨⟨6, rfl⟩, 2, rfl, by decide⟩⟩

/-- Claim C4, as stated, is false: at a concrete input whose Gross
Margin rows are present with a zero denominator, the ZeroDivisionError
does escape the per-ratio handlers (the `try:` body of
`calculate_financial_ratios` raises it), yet it does NOT propagate out
of ratio computation — the method-level `except Exception` handler
catches it, so the method returns normally with the error converted to
a displayed message. -/
theorem c4_unhandled_propagation_counterexample :
    ¬ (calcRatiosBody [("Gross Profit", [1]), ("Total Revenue", [0])] [] =
          .error .zeroDivisionError →
        (calculate_financial_ratios [("Gross Profit", [1]), ("Total Revenue", [0])]
          []).errorCaught = none) := by
  intro hcl
  have hbody : calcRatiosBody [("Gross Profit", [1]), ("Total Revenue", [0])] [] =
      .error .zeroDivisionError := rfl
  have hc : (calculate_financial_ratios [("Gross Profit", [1]), ("Total Revenue", [0])]
      []).errorCaught = some .zeroDivisionError := rfl
  rw [hc] at hcl
  exact Option.noConfusion (hcl hbody)

/-- Any exception escaping the per-ratio handlers (raised by the `try:`
body) is caught by the method-level `except Exception` handler: the
method returns normally with that exception recorded as a displayed
error and the missing-data warning suppressed. -/
lemma calculate_of_body_error (inc bal : Statement) (e : PyErr)
    (h : calcRatiosBody inc bal = .error e) :
    (calculate_financial_ratios inc bal).errorCaught = some e ∧
    (calculate_financial_ratios inc bal).warning = none := by
  unfold calcRatiosBody at h
  unfold calculate_financial_ratios
  cases ht1 : tryBlock inc "Gross Profit" "Total Revenue" "Gross Margin" ([], []) with
  | error e1 =>
    rw [ht1] at h
    simp only [Bind.bind, Except.bind] at h
    cases h
    simp [ht1]
  | ok acc1 =>
    rw [ht1] at h
    simp only [Bind.bind, Except.bind] at h
    cases ht2 : tryBlock bal "Total Current Assets" "Total Current Liabilities"
        "Current Ratio" acc1 with
    | error e2 =>
      rw [ht2] at h
      simp only [Bind.bind, Except.bind] at h
      cases h
      simp [ht1, ht2]
    | ok acc2 =>
      rw [ht2] at h
      simp only [Bind.bind, Except.bind] at h
      cases ht3 : tryBlock bal "Total Liab" "Total Stockholder Equity"
          "Debt-to-Equity Ratio" acc2 with
      | error e3 =>
        rw [ht3] at h
        cases h
        simp [ht1, ht2, ht3]
      | ok acc3 =>
        rw [ht3] at h
        exact Except.noConfusion h

/-- Uppercasing yields the empty string only for the empty string. -/
lemma pyUpper_empty_iff (s : String) : pyUpper s = "" ↔ s = "" := by
  constructor
  · intro h
    have hmap : s.data.map Char.toUpper = [] := congrArg String.data h
    have hnil : s.data = [] := List.map_eq_nil_iff.mp hmap
    cases s with
    | mk l =>
      have hl : l = [] := hnil
      rw [hl]
  · intro h
    rw [h]
    rfl

/-- A download link for some text with a given filename trivially exists
for its own text. -/
lemma exists_gtdl (r file : String) :
    ∃ text, get_text_download_link r file = get_text_download_link text file := ⟨r, rfl⟩

/-- Running `mainRun` with a nonempty ticker runs the analysis block on the
uppercased ticker. -/
lemma mainRun_eq_mainBody (input : String) (env : Env) (hup : pyUpper input ≠ "") :
    mainRun input env = mainBody (pyUpper input) env := by
  simp only [mainRun]
  rw [if_neg hup]

/-- A block whose rows are present with a zero most-recent denominator
raises `ZeroDivisionError`, which its `except KeyError` handler does
not catch, whatever was accumulated before. -/
lemma tryBlock_zero (stmt : Statement) (numKey denKey name : String)
    (acc : List (String × Rat) × List String) (h : zeroDenom stmt numKey denKey) :
    tryBlock stmt numKey denKey name acc = .error .zeroDivisionError := by
  obtain ⟨⟨x, hx⟩, hd⟩ := h
  simp [tryBlock, hx, hd]

/-- Claim C4 (amended): whenever some ratio's required rows are present
in the most recent period but its denominator is zero, ratio
computation raises an error that escapes the per-ratio handlers (the
`try:` body of `calculate_financial_ratios` raises it), but it does
not propagate out of ratio computation as an unhandled exception: the
method-level `except Exception` handler catches exactly that error and
converts it to a displayed error message, with the missing-data
warning suppressed — a handled path distinct from the missing-row
case. -/
theorem c4_division_error_caught_amended (inc bal : Statement)
    (h : zeroDenom inc "Gross Profit" "Total Revenue" ∨
      zeroDenom bal "Total Current Assets" "Total Current Liabilities" ∨
      zeroDenom bal "Total Liab" "Total Stockholder Equity") :
    ∃ e, calcRatiosBody inc bal = .error e ∧
      (calculate_financial_ratios inc bal).errorCaught = some e ∧
      (calculate_financial_ratios inc bal).warning = none := by
  have hbody : ∃ e, calcRatiosBody inc bal = .error e := by
    rcases h with h1 | h2 | h3
    · refine ⟨.zeroDivisionError, ?_⟩
      unfold calcRatiosBody
      rw [tryBlock_zero inc "Gross Profit" "Total Revenue" "Gross Margin" ([], []) h1]
      rfl
    · cases ht1 : tryBlock inc "Gross Profit" "Total Revenue" "Gross Margin" ([], []) with
      | error e1 =>
        refine ⟨e1, ?_⟩
        unfold calcRatiosBody
        rw [ht1]
        rfl
      | ok acc1 =>
        refine ⟨.zeroDivisionError, ?_⟩
        unfold calcRatiosBody
        rw [ht1]
        simp only [Bind.bind, Except.bind]
        rw [tryBlock_zero bal "Total Current Assets" "Total Current Liabilities"
          "Current Ratio" acc1 h2]
    · cases ht1 : tryBlock inc "Gross Profit" "Total Revenue" "Gross Margin" ([], []) with
      | error e1 =>
        refine ⟨e1, ?_⟩
        unfold calcRatiosBody
        rw [ht1]
        rfl
      | ok acc1 =>
        cases ht2 : tryBlock bal "Total Current Assets" "Total Current Liabilities"
            "Current Ratio" acc1 with
        | error e2 =>
          refine ⟨e2, ?_⟩
          unfold calcRatiosBody
          rw [ht1]
          simp only [Bind.bind, Except.bind]
          rw [ht2]
        | ok acc2 =>
          refine ⟨.zeroDivisionError, ?_⟩
          unfold calcRatiosBody
          rw [ht1]
          simp only [Bind.bind, Except.bind]
          rw [ht2]
          simp only [Bind.bind, Except.bind]
          rw [tryBlock_zero bal "Total Liab" "Total Stockholder Equity"
            "Debt-to-Equity Ratio" acc2 h3]
  obtain ⟨e, he⟩ := hbody
  obtain ⟨hc, hw⟩ := calculate_of_body_error inc bal e he
  exact ⟨e, he, hc, hw⟩

/-- Witness for the amended C4 at a concrete input with a zero Total
Revenue denominator. -/
theorem c4_division_error_caught_amended_witness :
    ∃ e, calcRatiosBody [("Gross Profit", [1]), ("Total Revenue", [0])] [] = .error e ∧
      (calculate_financial_ratios [("Gross Profit", [1]), ("Total Revenue", [0])]
          []).errorCaught = some e ∧
      (calculate_financial_ratios [("Gross Profit", [1]), ("Total Revenue", [0])]
          []).warning = none :=
  c4_division_error_caught_amended [("Gross Profit", [1]), ("Total Revenue", [0])] []
    (Or.inl ⟨⟨1, rfl⟩, rfl⟩)

/-- Claim C5: on every run with a nonempty ticker and a successful
fetch, exactly one report-generation path is invoked: the fallback path
when `financial_ratios` is empty, the ratio-grounded path when it has
at least one entry — never both. -/
theorem c5_report_path_selection (input : String) (env : Env)
    (hin : input ≠ "") (hfetch : env.fetchOk = true) :
    ((calculate_financial_ratios env.income env.balance).ratios = [] →
      (mainRun input env).countP isFallbackInvoke = 1 ∧
      (mainRun input env).countP isRatioInvoke = 0) ∧
    ((calculate_financial_ratios env.income env.balance).ratios ≠ [] →
      (mainRun input env).countP isRatioInvoke = 1 ∧
      (mainRun input env).countP isFallbackInvoke = 0) := by
  have hup : pyUpper input ≠ "" := fun hc => hin ((pyUpper_empty_iff input).mp hc)
  rw [mainRun_eq_mainBody input env hup]
  unfold mainBody
  rw [hfetch]
  constructor
  · intro hnil
    rw [hnil]
    cases hw : (calculate_financial_ratios env.income env.balance).warning <;>
      cases he : (calculate_financial_ratios env.income env.balance).errorCaught <;>
      cases hr : (generate_report_with_available_data (pyUpper input)
          env.fallbackChoices).report <;>
      simp [hw, he, hr, List.countP_append, List.countP_cons,
        isFallbackInvoke, isRatioInvoke]
  · intro hne
    have hie : (calculate_financial_ratios env.income env.balance).ratios.isEmpty = false := by
      cases hratios : (calculate_financial_ratios env.income env.balance).ratios with
      | nil => exact absurd hratios hne
      | cons a l => rfl
    rw [hie]
    cases hw : (calculate_financial_ratios env.income env.balance).warning <;>
      cases he : (calculate_financial_ratios env.income env.balance).errorCaught <;>
      cases hs : env.showRaw <;>
      cases hr : (generate_financial_report (pyUpper input)
          (calculate_financial_ratios env.income env.balance).ratios
          env.ratioChoices).report <;>
      simp [hw, he, hs, hr, List.countP_append, List.countP_cons,
        isFallbackInvoke, isRatioInvoke]

/-- Witness for C5 at a concrete run whose statements yield no ratios,
hence the fallback path. -/
theorem c5_report_path_selection_witness :
    ((calculate_financial_ratios ([] : Statement) ([] : Statement)).ratios = [] →
      (mainRun "aapl" ⟨true, [], [], false, none, some ["ok"]⟩).countP isFallbackInvoke = 1 ∧
      (mainRun "aapl" ⟨true, [], [], false, none, some ["ok"]⟩).countP isRatioInvoke = 0) ∧
    ((calculate_financial_ratios ([] : Statement) ([] : Statement)).ratios ≠ [] →
      (mainRun "aapl" ⟨true, [], [], false, none, some ["ok"]⟩).countP isRatioInvoke = 1 ∧
      (mainRun "aapl" ⟨true, [], [], false, none, some ["ok"]⟩).countP isFallbackInvoke = 0) :=
  c5_report_path_selection "aapl" ⟨true, [], [], false, none, some ["ok"]⟩ (by decide) rfl

/-- Claim C8: with the ticker input left empty, nothing happens — no
fetch, no analyzer construction, no message: the trace of observable
events is empty and the UI stays idle. -/
theorem c8_empty_ticker_idle (env : Env) : mainRun "" env = [] := rfl

/-- Claim C9: the ticker is uppercased before any use — the analyzer is
constructed with, the fetch is performed for, the report generators are
invoked with, and the download filename is built from the uppercased
input. -/
theorem c9_ticker_uppercased (input : String) (env : Env) :
    (∀ t, Event.constructAnalyzer t ∈ mainRun input env → t = pyUpper input) ∧
    (∀ t, Event.fetchAttempt t ∈ mainRun input env → t = pyUpper input) ∧
    (∀ t, Event.invokeRatioReport t ∈ mainRun input env → t = pyUpper input) ∧
    (∀ t, Event.invokeFallbackReport t ∈ mainRun input env → t = pyUpper input) ∧
    (∀ href, Event.downloadLink href ∈ mainRun input env →
      ∃ text, href = get_text_download_link text (pyUpper input ++ "_financial_report.txt")) := by
  by_cases hup : pyUpper input = ""
  · simp [mainRun, hup]
  · rw [mainRun_eq_mainBody input env hup]
    unfold mainBody
    cases hf : env.fetchOk with
    | false => simp
    | true =>
      cases hw : (calculate_financial_ratios env.income env.balance).warning <;>
        cases he : (calculate_financial_ratios env.income env.balance).errorCaught <;>
        cases hie : (calculate_financial_ratios env.income env.balance).ratios.isEmpty <;>
        cases hs : env.showRaw <;>
        cases hr1 : (generate_financial_report (pyUpper input)
            (calculate_financial_ratios env.income env.balance).ratios
            env.ratioChoices).report <;>
        cases hr2 : (generate_report_with_available_data (pyUpper input)
            env.fallbackChoices).report <;>
        simp [hw, he, hie, hs, hr1, hr2, exists_gtdl]

/-! ### String helper lemmas for the prompt and strip claims -/

/-- Folding the ratio lines onto an accumulator only appends to it. -/
lemma foldl_entry_tail (rs : List (String × Rat)) :
    ∀ init : String, ∃ t, rs.foldl (fun acc p => acc ++ entryStr p) init = init ++ t := by
  induction rs with
  | nil => exact fun init => ⟨"", by simp⟩
  | cons q rs ih =>
    intro init
    obtain ⟨t, ht⟩ := ih (init ++ entryStr q)
    exact ⟨entryStr q ++ t, by rw [List.foldl_cons, ht, String.append_assoc]⟩

/-- Every listed ratio's formatted line occurs inside the accumulated
`ratios_text`. -/
lemma ratiosText_contains (rs : List (String × Rat)) :
    ∀ (init : String) (p : String × Rat), p ∈ rs →
      ∃ s t, rs.foldl (fun acc p => acc ++ entryStr p) init = s ++ entryStr p ++ t := by
  induction rs with
  | nil => exact fun init p hp => absurd hp (List.not_mem_nil p)
  | cons q rs ih =>
    intro init p hp
    rcases List.mem_cons.mp hp with rfl | hp
    · obtain ⟨t, ht⟩ := foldl_entry_tail rs (init ++ entryStr p)
      exact ⟨init, t, by rw [List.foldl_cons, ht]⟩
    · exact ih (init ++ entryStr q) p hp

/-- The head of `dropWhile p` never satisfies `p`. -/
lemma head_dropWhile_false {α : Type} (p : α → Bool) (l : List α) :
    ∀ c, (l.dropWhile p).head? = some c → p c = false := by
  induction l with
  | nil => intro c h; simp [List.dropWhile] at h
  | cons a l ih =>
    intro c h
    rw [List.dropWhile_cons] at h
    by_cases hp : p a
    · rw [if_pos hp] at h
      exact ih c h
    · rw [if_neg hp] at h
      simp only [List.head?_cons, Option.some.injEq] at h
      rw [← h]
      exact Bool.eq_false_iff.mpr hp

/-- The first character of a stripped string is never whitespace. -/
lemma pyStrip_head (t : String) :
    ∀ c, (pyStrip t).data.head? = some c → pyIsSpace c = false := by
  intro c h
  have hh : (((t.data.dropWhile pyIsSpace).reverse.dropWhile pyIsSpace).reverse).head? =
      some c := h
  rw [List.head?_reverse] at hh
  obtain ⟨pre, hpre⟩ := List.dropWhile_suffix (l := (t.data.dropWhile pyIsSpace).reverse)
    (p := pyIsSpace)
  have hne : (t.data.dropWhile pyIsSpace).reverse.dropWhile pyIsSpace ≠ [] := by
    intro hnil
    rw [hnil] at hh
    exact Option.noConfusion hh
  have hlast : ((t.data.dropWhile pyIsSpace).reverse).getLast? = some c := by
    rw [← hpre, List.getLast?_append_of_ne_nil pre hne]
    exact hh
  rw [List.getLast?_reverse] at hlast
  exact head_dropWhile_false pyIsSpace t.data c hlast

/-- The last character of a stripped string is never whitespace. -/
lemma pyStrip_last (t : String) :
    ∀ c, (pyStrip t).data.getLast? = some c → pyIsSpace c = false := by
  intro c h
  have hh : (((t.data.dropWhile pyIsSpace).reverse.dropWhile pyIsSpace).reverse).getLast? =
      some c := h
  rw [List.getLast?_reverse] at hh
  exact head_dropWhile_false pyIsSpace _ c hh

/-- Claim C7: in ratio-grounded mode the request goes to gpt-3.5-turbo
with a 500-token cap and temperature 0.7, and the prompt contains every
`financial_ratios` entry as a `name: value` line with the value
formatted to two decimal places; in fallback mode the request goes to
gpt-4o with a 2048-token cap and temperature 1.0 and the prompt is the
generic template referencing only the ticker. -/
theorem c7_prompt_and_params (ticker : String) (ratios : List (String × Rat))
    (choices1 choices2 : Option (List String)) (hne : ratios ≠ []) :
    (∃ req, (generate_financial_report ticker ratios choices1).request = some req ∧
      req.model = "gpt-3.5-turbo" ∧ req.max_tokens = 500 ∧ req.temperature = 7/10 ∧
      ∀ p ∈ ratios, ∃ s t, req.userMsg = s ++ (p.1 ++ ": " ++ fmt2 p.2 ++ "\n") ++ t) ∧
    (∃ req, (generate_report_with_available_data ticker choices2).request = some req ∧
      req.model = "gpt-4o" ∧ req.max_tokens = 2048 ∧ req.temperature = 1 ∧
      req.userMsg = fallbackPrompt ticker) := by
  have hie : ratios.isEmpty = false := by
    cases hr : ratios with
    | nil => exact absurd hr hne
    | cons a l => rfl
  constructor
  · refine ⟨ratioRequest ticker ratios, ?_, rfl, rfl, rfl, ?_⟩
    · unfold generate_financial_report
      rw [hie]
      cases choices1 with
      | none => rfl
      | some l =>
        cases l with
        | nil => rfl
        | cons t rest => rfl
    · intro p hp
      obtain ⟨s, t, hst⟩ := ratiosText_contains ratios "" p hp
      refine ⟨("\n            Provide a detailed analysis of " ++ ticker ++
        "'s financial health based on the following financial ratios:\n\n            ") ++ s,
        t ++ "\n\n            Discuss what each available ratio means for the company's financial stability and performance.\n            ", ?_⟩
      simp only [ratioRequest]
      unfold ratioPrompt ratiosText
      rw [hst]
      simp [String.append_assoc, entryStr]
  · refine ⟨fallbackRequest ticker, ?_, rfl, rfl, rfl, rfl⟩
    unfold generate_report_with_available_data
    cases choices2 with
    | none => rfl
    | some l =>
      cases l with
      | nil => rfl
      | cons t rest => rfl

/-- Witness for C7 with one computed ratio. -/
theorem c7_prompt_and_params_witness :
    (∃ req, (generate_financial_report "AAPL" [("Gross Margin", (3 : Rat) / 4)]
        (some ["raw"])).request = some req ∧
      req.model = "gpt-3.5-turbo" ∧ req.max_tokens = 500 ∧ req.temperature = 7/10 ∧
      ∀ p ∈ [("Gross Margin", (3 : Rat) / 4)],
        ∃ s t, req.userMsg = s ++ (p.1 ++ ": " ++ fmt2 p.2 ++ "\n") ++ t) ∧
    (∃ req, (generate_report_with_available_data "AAPL" (some ["raw"])).request = some req ∧
      req.model = "gpt-4o" ∧ req.max_tokens = 2048 ∧ req.temperature = 1 ∧
      req.userMsg = fallbackPrompt "AAPL") :=
  c7_prompt_and_params "AAPL" [("Gross Margin", (3 : Rat) / 4)] (some ["raw"]) (some ["raw"])
    (by decide)

/-- Claim C10: on a successful completion response both report
generators return the first completion's text stripped of leading and
trailing whitespace, so the displayed and exported report never starts
or ends with whitespace even when the raw API response does. -/
theorem c10_report_stripped (ticker : String) (ratios : List (String × Rat))
    (t : String) (rest : List String) (hne : ratios ≠ []) :
    (generate_financial_report ticker ratios (some (t :: rest))).report = some (pyStrip t) ∧
    (generate_report_with_available_data ticker (some (t :: rest))).report =
      some (pyStrip t) ∧
    (∀ c, (pyStrip t).data.head? = some c → pyIsSpace c = false) ∧
    (∀ c, (pyStrip t).data.getLast? = some c → pyIsSpace c = false) := by
  have hie : ratios.isEmpty = false := by
    cases hr : ratios with
    | nil => exact absurd hr hne
    | cons a l => rfl
  refine ⟨?_, rfl, pyStrip_head t, pyStrip_last t⟩
  unfold generate_financial_report
  rw [hie]
  rfl

/-- Witness for C10 on a response text with whitespace at both ends. -/
theorem c10_report_stripped_witness :
    (generate_financial_report "AAPL" [("Gross Margin", (3 : Rat) / 4)]
        (some ["  report body\n", "other"])).report = some (pyStrip "  report body\n") ∧
    (generate_report_with_available_data "AAPL"
        (some ["  report body\n", "other"])).report = some (pyStrip "  report body\n") ∧
    (∀ c, (pyStrip "  report body\n").data.head? = some c → pyIsSpace c = false) ∧
    (∀ c, (pyStrip "  report body\n").data.getLast? = some c → pyIsSpace c = false) :=
  c10_report_stripped "AAPL" [("Gross Margin", (3 : Rat) / 4)] "  report body\n" ["other"]
    (by decide)

/-! ### Base64 and UTF-8 lemmas for the download-link claim -/

/-- Decoding a base64 alphabet character recovers its sextet. -/
lemma b64CharDec_b64Char : ∀ s, s < 64 → b64CharDec (b64Char s) = some s := by decide

/-- No base64 alphabet character is the padding character. -/
lemma b64Char_ne_pad : ∀ s, s < 64 → b64Char s ≠ '=' := by decide

/-- Strict base64 decoding inverts encoding on byte lists. -/
lemma b64_roundtrip (bs : List Nat) (h : ∀ x ∈ bs, x < 256) :
    b64decodeChars (b64encodeBytes bs) = some bs := by
  induction bs using b64encodeBytes.induct with
  | case1 => rfl
  | case2 a =>
    have ha : a < 256 := h a (by simp)
    have d1 := b64CharDec_b64Char (a / 4) (by omega)
    have d2 := b64CharDec_b64Char (a % 4 * 16) (by omega)
    simp only [b64encodeBytes, b64decodeChars, d1, d2]
    simp only [and_self, if_true]
    have hval : a / 4 * 4 + a % 4 * 16 / 16 = a := by omega
    rw [hval]
  | case3 a b =>
    have ha : a < 256 := h a (by simp)
    have hb : b < 256 := h b (by simp)
    have d1 := b64CharDec_b64Char (a / 4) (by omega)
    have d2 := b64CharDec_b64Char (a % 4 * 16 + b / 16) (by omega)
    have d3 := b64CharDec_b64Char (b % 16 * 4) (by omega)
    have hne3 := b64Char_ne_pad (b % 16 * 4) (by omega)
    simp only [b64encodeBytes, b64decodeChars, d1, d2, d3]
    rw [if_neg hne3]
    simp only [if_true]
    have hv1 : a / 4 * 4 + (a % 4 * 16 + b / 16) / 16 = a := by omega
    have hv2 : (a % 4 * 16 + b / 16) % 16 * 16 + b % 16 * 4 / 4 = b := by omega
    rw [hv1, hv2]
  | case4 a b c rest ih =>
    have ha : a < 256 := h a (by simp)
    have hb : b < 256 := h b (by simp)
    have hc : c < 256 := h c (by simp)
    have hrest : ∀ x ∈ rest, x < 256 := fun x hx => h x (by simp [hx])
    have d1 := b64CharDec_b64Char (a / 4) (by omega)
    have d2 := b64CharDec_b64Char (a % 4 * 16 + b / 16) (by omega)
    have d3 := b64CharDec_b64Char (b % 16 * 4 + c / 64) (by omega)
    have d4 := b64CharDec_b64Char (c % 64) (by omega)
    have hne3 := b64Char_ne_pad (b % 16 * 4 + c / 64) (by omega)
    have hne4 := b64Char_ne_pad (c % 64) (by omega)
    simp only [b64encodeBytes, b64decodeChars, d1, d2, d3, d4]
    rw [if_neg hne3, if_neg hne4, ih hrest]
    simp only [Option.map_some']
    have hv1 : a / 4 * 4 + (a % 4 * 16 + b / 16) / 16 = a := by omega
    have hv2 : (a % 4 * 16 + b / 16) % 16 * 16 + (b % 16 * 4 + c / 64) / 4 = b := by omega
    have hv3 : (b % 16 * 4 + c / 64) % 4 * 64 + c % 64 = c := by omega
    rw [hv1, hv2, hv3]

/-- Every character's code point is below the Unicode bound. -/
lemma char_toNat_lt (ch : Char) : ch.toNat < 1114112 := by
  have h : ch.val.toNat < 55296 ∨ (57343 < ch.val.toNat ∧ ch.val.toNat < 1114112) := ch.valid
  show ch.val.toNat < 1114112
  omega

/-- UTF-8 encoding produces bytes. -/
lemma utf8EncodeChar_lt (ch : Char) : ∀ x ∈ utf8EncodeChar ch, x < 256 := by
  have hc := char_toNat_lt ch
  intro x hx
  simp only [utf8EncodeChar] at hx
  split_ifs at hx with h1 h2 h3
  · simp at hx; omega
  · simp at hx; rcases hx with rfl | rfl <;> omega
  · simp at hx; rcases hx with rfl | rfl | rfl <;> omega
  · simp at hx; rcases hx with rfl | rfl | rfl | rfl <;> omega

/-- UTF-8 encoding of a string produces bytes. -/
lemma utf8Encode_lt (s : String) : ∀ x ∈ utf8Encode s, x < 256 := by
  unfold utf8Encode
  generalize s.data = l
  induction l with
  | nil => simp
  | cons c l ih =>
    intro x hx
    rw [List.foldr_cons] at hx
    rcases List.mem_append.mp hx with hm | hm
    · exact utf8EncodeChar_lt c x hm
    · exact ih x hm

/-- The base64 payload of the download link decodes back to the UTF-8
bytes of the exported text. -/
lemma b64OfString_decode (text : String) :
    b64decodeStr (b64OfString text) = some (utf8Encode text) := by
  show b64decodeChars (b64encodeBytes (utf8Encode text)) = some (utf8Encode text)
  exact b64_roundtrip _ (utf8Encode_lt text)

/-- Claim C6: every download link in the trace carries the displayed
report text: its base64 payload decodes to exactly the UTF-8 bytes of a
report that is shown, and its download filename is the uppercased
ticker followed by `_financial_report.txt`. -/
theorem c6_download_link_roundtrip (input : String) (env : Env) (href : String)
    (h : Event.downloadLink href ∈ mainRun input env) :
    ∃ text, Event.showReport text ∈ mainRun input env ∧
      href = get_text_download_link text (pyUpper input ++ "_financial_report.txt") ∧
      b64decodeStr (b64OfString text) = some (utf8Encode text) := by
  by_cases hup : pyUpper input = ""
  · exfalso
    have hemp : mainRun input env = [] := by
      simp only [mainRun]
      rw [if_pos hup]
    rw [hemp] at h
    exact List.not_mem_nil _ h
  · rw [mainRun_eq_mainBody input env hup] at h ⊢
    unfold mainBody at h ⊢
    cases hf : env.fetchOk with
    | false =>
      rw [hf] at h
      simp at h
    | true =>
      rw [hf] at h
      cases hw : (calculate_financial_ratios env.income env.balance).warning <;>
        cases he : (calculate_financial_ratios env.income env.balance).errorCaught <;>
        cases hie : (calculate_financial_ratios env.income env.balance).ratios.isEmpty <;>
        cases hs : env.showRaw <;>
        cases hr1 : (generate_financial_report (pyUpper input)
            (calculate_financial_ratios env.income env.balance).ratios
            env.ratioChoices).report <;>
        cases hr2 : (generate_report_with_available_data (pyUpper input)
            env.fallbackChoices).report <;>
        simp [hw, he, hie, hs, hr1, hr2, b64OfString_decode] at h ⊢ <;>
        exact h

/-- Witness for C6 at a concrete run that produces a download link. -/
theorem c6_download_link_roundtrip_witness :
    (Event.downloadLink (get_text_download_link "ok" ("AAPL" ++ "_financial_report.txt")) ∈
        mainRun "aapl" exampleEnv) ∧
    ∃ text, Event.showReport text ∈ mainRun "aapl" exampleEnv ∧
      get_text_download_link "ok" ("AAPL" ++ "_financial_report.txt") =
        get_text_download_link text (pyUpper "aapl" ++ "_financial_report.txt") ∧
      b64decodeStr (b64OfString text) = some (utf8Encode text) :=
  ⟨by decide, c6_download_link_roundtrip "aapl" exampleEnv _ (by decide)⟩

end FinAnalyzer
